import Mathlib

/-
Verification of the tezedge-client operation model, fee estimator, node
HTTP interface and transfer submission pipeline.

Shallow embedding of:
  - src/lib/src/types/operation/new_operation.rs  (NewOperation and friends)
  - src/lib/src/http_api.rs                       (HttpApi endpoint methods)
  - src/lib/src/http_api/contract/get_contract_counter.rs
  - src/lib/src/api/mod.rs                        (TransportError)
  - src/cli/src/commands/transfer.rs              (Transfer::execute pipeline)

Rust u64 values are modelled as Nat (no claim touches overflow); fallible
calls are modelled as Except; a Rust `.unwrap()` on an error value is
modelled as an explicit `panicked` outcome.  Network collaborators are
scripted: each node call receives its result as an explicit argument.
-/

/-- Modelled from the spec (section 3, Data Model): the `Address` type and its
kind tags are defined in repository code that is not under src/ (only users of
`Address` are).  An address is a tagged union over entity kinds, each carrying
a fixed 20-byte payload. -/
inductive AddressKind
  | implicit_ed25519
  | implicit_secp256k1
  | implicit_p256
  | originated_contract
deriving DecidableEq, Repr

/-- Modelled from the spec: an address is its kind tag plus a 20-byte payload. -/
structure Address where
  kind : AddressKind
  payload : List Nat
deriving DecidableEq, Repr

/-- Modelled from the spec (section 4.2): byte length of a variable-length
natural-number encoding (7 payload bits per byte), used for the amount field
size inside `estimate_bytes`. -/
def zarith_bytes (n : Nat) : Nat :=
  if n < 128 then 1 else 1 + zarith_bytes (n / 128)
decreasing_by exact Nat.div_lt_self (by omega) (by omega)

/-- Modelled from the spec: the serialized size of an address field
(fixed-size payload plus tag). -/
def address_field_bytes : Nat := 22

/-- Modelled from the spec: the serialized size of a revealed public key
(curve-specific raw bytes, 32 bytes typical, plus tag). -/
def public_key_field_bytes : Nat := 33

/-- Modelled from the spec (section 3): `NewRevealOperation` is defined in
repository code not under src/.  Shared fields source, fee, counter,
gas_limit, storage_limit; reveal adds the public key being revealed. -/
structure NewRevealOperation where
  source : Address
  public_key : String
  fee : Nat
  counter : Nat
  gas_limit : Nat
  storage_limit : Nat
deriving DecidableEq, Repr

/-- Modelled from the spec (section 3): `NewTransactionOperation` is defined in
repository code not under src/.  Transaction adds destination address and
amount. -/
structure NewTransactionOperation where
  source : Address
  destination : Address
  amount : Nat
  fee : Nat
  counter : Nat
  gas_limit : Nat
  storage_limit : Nat
deriving DecidableEq, Repr

/-- Modelled from the spec (section 3): `NewDelegationOperation` is defined in
repository code not under src/.  Delegation adds an optional delegate
address. -/
structure NewDelegationOperation where
  source : Address
  delegate : Option Address
  fee : Nat
  counter : Nat
  gas_limit : Nat
  storage_limit : Nat
deriving DecidableEq, Repr

/-- Modelled from the spec (section 4.2): `NewRevealOperation::estimate_bytes`
is in repository code not under src/.  A deterministic size estimate: a fixed
per-variant overhead plus the revealed public key field. -/
def NewRevealOperation.estimate_bytes (_op : NewRevealOperation) : Nat :=
  32 + public_key_field_bytes

/-- Modelled from the spec (section 4.2):
`NewTransactionOperation::estimate_bytes` is in repository code not under
src/.  Fixed overhead plus the destination address field and the
variable-length amount encoding. -/
def NewTransactionOperation.estimate_bytes (op : NewTransactionOperation) : Nat :=
  34 + address_field_bytes + zarith_bytes op.amount

/-- Modelled from the spec (section 4.2):
`NewDelegationOperation::estimate_bytes` is in repository code not under
src/.  Fixed overhead plus a presence byte and, when present, the delegate
address field. -/
def NewDelegationOperation.estimate_bytes (op : NewDelegationOperation) : Nat :=
  21 + (match op.delegate with
        | some _ => 1 + address_field_bytes
        | none => 1)

/-- Modelled from the spec (section 4.3): `crate::utils::estimate_operation_fee`
is in repository code not under src/.  The spec defines the pure function
`fee = base_fee + ceil(bytes * ntez_per_byte) + ceil(gas_estimate * ntez_per_gas)`;
on natural-number inputs the ceilings are exact products. -/
def estimate_operation_fee (base_fee ntez_per_byte ntez_per_gas
    estimated_gas estimated_bytes : Nat) : Nat :=
  base_fee + estimated_bytes * ntez_per_byte + estimated_gas * ntez_per_gas

/-- The operation sum type, from
src/lib/src/types/operation/new_operation.rs (enum NewOperation). -/
inductive NewOperation
  | Reveal (op : NewRevealOperation)
  | Transaction (op : NewTransactionOperation)
  | Delegation (op : NewDelegationOperation)
deriving DecidableEq, Repr

namespace NewOperation

/-- From new_operation.rs, `NewOperation::kind_str`. -/
def kind_str : NewOperation → String
  | .Reveal _ => "reveal"
  | .Transaction _ => "transaction"
  | .Delegation _ => "delegation"

/-- From new_operation.rs, `NewOperation::get_fee`. -/
def get_fee : NewOperation → Nat
  | .Reveal op => op.fee
  | .Transaction op => op.fee
  | .Delegation op => op.fee

/-- From new_operation.rs, `NewOperation::set_fee` (the Rust method mutates
`self` in place; modelled functionally as returning the updated value). -/
def set_fee : NewOperation → Nat → NewOperation
  | .Reveal op, fee => .Reveal { op with fee := fee }
  | .Transaction op, fee => .Transaction { op with fee := fee }
  | .Delegation op, fee => .Delegation { op with fee := fee }

/-- From new_operation.rs, `NewOperation::estimate_bytes` (delegates to the
variant). -/
def estimate_bytes : NewOperation → Nat
  | .Reveal op => op.estimate_bytes
  | .Transaction op => op.estimate_bytes
  | .Delegation op => op.estimate_bytes

/-- From new_operation.rs, `NewOperation::estimate_fee`. -/
def estimate_fee (op : NewOperation) (base_fee ntez_per_byte ntez_per_gas
    estimated_gas : Nat) : Nat :=
  estimate_operation_fee base_fee ntez_per_byte ntez_per_gas estimated_gas
    op.estimate_bytes

end NewOperation

/-- From new_operation.rs, struct NewOperationWithKind: an operation paired
with its wire-level kind discriminant. -/
structure NewOperationWithKind where
  kind : String
  operation : NewOperation
deriving DecidableEq, Repr

/-- From new_operation.rs, `impl From<NewOperation> for NewOperationWithKind`. -/
def NewOperationWithKind.of_operation (op : NewOperation) : NewOperationWithKind :=
  { kind := op.kind_str, operation := op }

/-- HTTP methods used by the node client (src/lib/src/http_api.rs uses
`client.get` and `client.post`). -/
inductive HttpMethod
  | GET
  | POST
deriving DecidableEq, Repr

/-- From http_api.rs, `HttpApi::forge_operations_url`. -/
def forge_operations_url (base_url last_block_hash : String) : String :=
  base_url ++ "/chains/main/blocks/" ++ last_block_hash ++ "/helpers/forge/operations"

/-- Body of the forge request built by `ForgeOperations for HttpApi`
(http_api.rs): the JSON object with a `branch` field and a `contents` array of
kind-wrapped operations. -/
structure ForgeRequestBody where
  branch : String
  contents : List NewOperationWithKind
deriving DecidableEq, Repr

/-- From http_api.rs, `impl ForgeOperations for HttpApi`: the request it sends —
a POST to `forge_operations_url`, whose JSON body holds the branch and the
operations each wrapped via `OperationWithKind::from`. -/
def forge_operations_request (base_url last_block_hash : String)
    (operations : List NewOperation) : HttpMethod × String × ForgeRequestBody :=
  (HttpMethod.POST,
   forge_operations_url base_url last_block_hash,
   { branch := last_block_hash,
     contents := operations.map NewOperationWithKind.of_operation })

/-- Modelled from the spec (section 4.2): `BuilderError::MissingField(name)` —
the builder error type is in repository code not under src/. -/
inductive BuilderError
  | MissingField (name : String)
deriving DecidableEq, Repr

/-- Modelled from the spec (section 4.2): `NewTransactionOperationBuilder` is
in repository code not under src/.  The builder validates presence of all
required fields before producing an operation, failing with
`BuilderError::MissingField(name)` on the first missing one; a complete
builder stores each supplied value verbatim in the operation. -/
def new_transaction_operation_build (source destination : Option Address)
    (amount fee counter gas_limit storage_limit : Option Nat) :
    Except BuilderError NewTransactionOperation :=
  match source with
  | none => .error (.MissingField "source")
  | some source =>
    match destination with
    | none => .error (.MissingField "destination")
    | some destination =>
      match amount with
      | none => .error (.MissingField "amount")
      | some amount =>
        match fee with
        | none => .error (.MissingField "fee")
        | some fee =>
          match counter with
          | none => .error (.MissingField "counter")
          | some counter =>
            match gas_limit with
            | none => .error (.MissingField "gas_limit")
            | some gas_limit =>
              match storage_limit with
              | none => .error (.MissingField "storage_limit")
              | some storage_limit =>
                .ok { source := source, destination := destination,
                      amount := amount, fee := fee, counter := counter,
                      gas_limit := gas_limit, storage_limit := storage_limit }

/-- The node data fetched by `Transfer::execute` before building the
operation (src/cli/src/commands/transfer.rs lines 141-144): protocol info,
the on-chain counter for the source key, constants, and the head block
hash. -/
structure FetchedNodeData where
  next_protocol_hash : String
  on_chain_counter : Nat
  hard_storage_limit_per_operation : Nat
  head_block_hash : String
deriving DecidableEq, Repr

/-- From transfer.rs lines 141-163: `Transfer::execute` computes
`counter = get_counter_for_key(from) + 1` and passes it, together with the
parsed amount and fee, a gas limit of 50000 and the constants' storage limit,
to the transaction builder. -/
def transfer_execute_build (source destination : Address) (amount fee : Nat)
    (data : FetchedNodeData) : Except BuilderError NewTransactionOperation :=
  let counter := data.on_chain_counter + 1
  new_transaction_operation_build (some source) (some destination)
    (some amount) (some fee) (some counter) (some 50000)
    (some data.hard_storage_limit_per_operation)

/-- From src/lib (api): enum PendingOperationStatus, as matched by
`Transfer::execute` (transfer.rs lines 246-255). -/
inductive PendingOperationStatus
  | Refused
  | Applied
  | Finished
deriving DecidableEq, Repr

/-- Node calls traced by the submission tail of `Transfer::execute`
(transfer.rs lines 220-256): preapply_operations, inject_operations, and
get_pending_operation_status polls. -/
inductive NodeCall
  | preapply
  | inject
  | poll
deriving DecidableEq, Repr

/-- How the confirmation for-loop of `Transfer::execute` (transfer.rs lines
242-256) exits: `confirmed` via the `Finished => break` arm, `refused` via the
`Refused => exit_with_error` arm, `timedOut` by exhausting the ten loop
iterations with `Applied`, `pollFailure` when a status poll itself fails
(the `.unwrap()` on the poll result panics). -/
inductive LoopExit
  | confirmed
  | refused
  | timedOut
  | pollFailure
deriving DecidableEq, Repr

/-- The confirmation loop of transfer.rs lines 242-256, with the node's
status answers scripted as a list: `for _ in 0..fuel` polls once per
iteration (the two-second sleep has no observable effect here) and matches
the status; an exhausted script models a failing poll, whose `.unwrap()`
panics.  Returns the trace of node calls made and the loop exit. -/
def confirmation_loop : Nat → List PendingOperationStatus →
    List NodeCall × LoopExit
  | 0, _ => ([], .timedOut)
  | _ + 1, [] => ([.poll], .pollFailure)
  | n + 1, s :: rest =>
    match s with
    | .Refused => ([.poll], .refused)
    | .Finished => ([.poll], .confirmed)
    | .Applied =>
      let r := confirmation_loop n rest
      (.poll :: r.1, r.2)

/-- The fixed attempt budget of the confirmation loop: `for _ in 0..10`
(transfer.rs line 242). -/
def ATTEMPT_BUDGET : Nat := 10

/-- Result of the submission tail of `Transfer::execute`: the preapply or
inject `.unwrap()` can panic; otherwise the confirmation loop runs to an
exit. -/
inductive SubmitResult
  | panickedPreapply
  | panickedInject
  | loopDone (e : LoopExit)
deriving DecidableEq, Repr

/-- The submission tail of `Transfer::execute` (transfer.rs lines 220-256),
with collaborator results scripted: preapply_operations is called first and
its result unwrapped (a failure panics before anything else happens);
inject_operations is called next and unwrapped; then the confirmation loop
runs with the fixed attempt budget.  Returns the trace of node calls and the
result. -/
def transfer_submit : Bool → Bool → List PendingOperationStatus →
    List NodeCall × SubmitResult
  | false, _, _ => ([.preapply], .panickedPreapply)
  | true, false, _ => ([.preapply, .inject], .panickedInject)
  | true, true, script =>
    let r := confirmation_loop ATTEMPT_BUDGET script
    (.preapply :: .inject :: r.1, .loopDone r.2)

/-- What the program reports to its caller after the submission tail
(transfer.rs lines 247-276): `exit_with_error("transaction refused")` on the
Refused arm; a panic aborts the process; on every other path the code after
the loop runs unconditionally, printing the "operation confirmed" message and
the operation hash. -/
inductive TransferReport
  | panic
  | exitRefused
  | confirmedWithHash
deriving DecidableEq, Repr

/-- From transfer.rs lines 247-276: mapping the submission result to what the
program reports.  The code after the confirmation loop is the same whether
the loop exited via `break` on Finished or by exhausting its ten iterations:
both print "operation confirmed" and the operation hash. -/
def transfer_report : SubmitResult → TransferReport
  | .panickedPreapply => .panic
  | .panickedInject => .panic
  | .loopDone .refused => .exitRefused
  | .loopDone .pollFailure => .panic
  | .loopDone .confirmed => .confirmedWithHash
  | .loopDone .timedOut => .confirmedWithHash

/-- From transfer.rs lines 267-276: the operation hash is printed exactly on
the path that reaches the code after the confirmation loop
(`exit_with_error` and panics terminate the process first). -/
def hash_printed : TransferReport → Bool
  | .confirmedWithHash => true
  | .panic => false
  | .exitRefused => false

/-- An IO error carried by a failed response-body read or JSON parse
(std::io::Error, identified here by its message). -/
structure IoError where
  message : String
deriving DecidableEq, Repr

/-- Decidable equality for Except, used to keep the scripted call results
decidable. -/
instance {ε α : Type} [DecidableEq ε] [DecidableEq α] :
    DecidableEq (Except ε α) := fun
  | .error e, .error f =>
    if h : e = f then .isTrue (by rw [h])
    else .isFalse (by intro he; cases he; exact h rfl)
  | .error _, .ok _ => .isFalse (by intro h; cases h)
  | .ok _, .error _ => .isFalse (by intro h; cases h)
  | .ok a, .ok b =>
    if h : a = b then .isTrue (by rw [h])
    else .isFalse (by intro he; cases he; exact h rfl)

/-- A ureq HTTP response as observed by the code under verification: its
status text and the result of reading its body into a string
(`resp.into_string()`), plus nothing else. -/
structure UreqResponse where
  status_text : String
  body_string : Except IoError String
deriving DecidableEq, Repr

/-- The ureq error enum as matched in get_contract_counter.rs: a transport
failure (identified here by its description) or an HTTP status error carrying
the status code and the response. -/
inductive UreqError
  | Transport (description : String)
  | Status (code : Nat) (resp : UreqResponse)
deriving DecidableEq, Repr

/-- The dynamic error value boxed inside TransportError
(`Box<dyn std::error::Error>`): either a ureq transport error or an IO
error. -/
inductive BoxedError
  | ureqTransport (description : String)
  | io (e : IoError)
deriving DecidableEq, Repr

/-- From src/lib/src/api/mod.rs: `pub struct TransportError(pub Box<dyn Error>)`. -/
structure TransportError where
  boxed : BoxedError
deriving DecidableEq, Repr

/-- From src/lib (api): enum GetContractCounterErrorKind, with a Transport
variant wrapping the underlying error and an Unknown variant carrying a
message. -/
inductive GetContractCounterErrorKind
  | Transport (e : TransportError)
  | Unknown (message : String)
deriving DecidableEq, Repr

/-- From get_contract_counter.rs lines 16-36,
`impl From<ureq::Error> for GetContractCounterErrorKind`: a transport error
becomes `Transport(TransportError(Box::new(error)))`; a status error becomes
`Unknown` with the formatted status code, status text and, when the body is
readable, its message. -/
def GetContractCounterErrorKind.of_ureq_error : UreqError →
    GetContractCounterErrorKind
  | .Transport d => .Transport { boxed := .ureqTransport d }
  | .Status code resp =>
    .Unknown ("Http status: (" ++ toString code ++ ", " ++ resp.status_text
      ++ ")"
      ++ (match resp.body_string with
          | .ok s => ", message: " ++ s
          | .error _ => ""))

/-- From get_contract_counter.rs lines 38-42,
`impl From<std::io::Error> for GetContractCounterErrorKind`. -/
def GetContractCounterErrorKind.of_io_error (e : IoError) :
    GetContractCounterErrorKind :=
  .Transport { boxed := .io e }

/-- From src/lib (api): struct GetContractCounterError, carrying the queried
address and the error kind. -/
structure GetContractCounterError where
  address : Address
  kind : GetContractCounterErrorKind
deriving DecidableEq, Repr

/-- From get_contract_counter.rs lines 44-52, `build_error`. -/
def build_error (address : Address) (kind : GetContractCounterErrorKind) :
    GetContractCounterError :=
  { address := address, kind := kind }

/-- From get_contract_counter.rs lines 55-63,
`impl GetContractCounter for HttpApi`: the GET call's result and the JSON
decoding of its response are scripted as arguments; each failure is mapped
through `build_error` with the queried address. -/
def get_contract_counter (addr : Address)
    (call : Except UreqError UreqResponse)
    (into_json : UreqResponse → Except IoError Nat) :
    Except GetContractCounterError Nat :=
  match call with
  | .error e => .error (build_error addr (.of_ureq_error e))
  | .ok resp =>
    match into_json resp with
    | .error e => .error (build_error addr (.of_io_error e))
    | .ok n => .ok n

/-- Result of running code that may hit a failed `.unwrap()`: either the
value, or a panic. -/
inductive Unwrapped (α : Type)
  | ok (value : α)
  | panicked
deriving DecidableEq, Repr

/-- From http_api.rs lines 195-207, `impl GetCounterForKey for HttpApi`:
`client.get(url).call().unwrap().into_json::<String>().unwrap().parse().unwrap()`
— every step is unwrapped, so a failing call, body decode or numeric parse
panics instead of returning an error. -/
def get_counter_for_key (_key : String)
    (call : Except UreqError UreqResponse)
    (into_json : UreqResponse → Except IoError String) : Unwrapped Nat :=
  match call with
  | .error _ => .panicked
  | .ok resp =>
    match into_json resp with
    | .error _ => .panicked
    | .ok s =>
      match s.toNat? with
      | none => .panicked
      | some n => .ok n

/-- A sample 20-byte address for concrete instantiations. -/
def sample_address : Address :=
  { kind := .implicit_ed25519, payload := List.replicate 20 0 }

/-- A second, distinct sample address. -/
def sample_address2 : Address :=
  { kind := .implicit_ed25519, payload := List.replicate 20 1 }

/-- A sample transaction operation (amount 1). -/
def sample_tx1 : NewTransactionOperation :=
  { source := sample_address, destination := sample_address2, amount := 1,
    fee := 10, counter := 1, gas_limit := 50000, storage_limit := 60000 }

/-- A sample transaction operation differing from `sample_tx1` in every
field, with amount 2 (whose variable-length encoding has the same size as
amount 1). -/
def sample_tx2 : NewTransactionOperation :=
  { source := sample_address2, destination := sample_address, amount := 2,
    fee := 99, counter := 7, gas_limit := 40000, storage_limit := 30000 }

/-- A sample transaction operation with amount 200, whose variable-length
encoding is one byte longer than that of amount 1. -/
def sample_tx3 : NewTransactionOperation :=
  { source := sample_address, destination := sample_address2, amount := 200,
    fee := 10, counter := 1, gas_limit := 50000, storage_limit := 60000 }

/-- Every node call made inside the confirmation loop is a status poll. -/
theorem confirmation_loop_calls_poll (fuel : Nat) :
    ∀ (script : List PendingOperationStatus),
      ∀ c ∈ (confirmation_loop fuel script).1, c = NodeCall.poll := by
  induction fuel with
  | zero =>
    intro script c hc
    simp [confirmation_loop] at hc
  | succ n ih =>
    intro script c hc
    cases script with
    | nil =>
      simp [confirmation_loop] at hc
      exact hc
    | cons s rest =>
      cases s with
      | Refused => simp [confirmation_loop] at hc; exact hc
      | Finished => simp [confirmation_loop] at hc; exact hc
      | Applied =>
        simp [confirmation_loop] at hc
        cases hc with
        | inl h => exact h
        | inr h => exact ih rest c h

/-- The confirmation loop never calls inject_operations. -/
theorem confirmation_loop_no_inject (fuel : Nat)
    (script : List PendingOperationStatus) :
    NodeCall.inject ∉ (confirmation_loop fuel script).1 := by
  intro h
  exact absurd (confirmation_loop_calls_poll fuel script _ h) (by decide)

/-- C1: The confirmation loop of the submission pipeline, polling
get_pending_operation_status with the fixed attempt budget of 10, reaches the
confirmed exit after exactly 3 polls on the scripted sequence
[Applied, Applied, Finished]; reaches the refused exit after exactly 1 poll
on [Refused]; exits by timing out after the full budget of 10 polls when
every poll returns Applied; and inject_operations is called exactly once
over the whole run in every case (indeed on every script). -/
theorem C1_confirmation_loop_termination :
    ((transfer_submit true true [.Applied, .Applied, .Finished]).1.count
        NodeCall.poll = 3
      ∧ (transfer_submit true true [.Applied, .Applied, .Finished]).2
        = SubmitResult.loopDone LoopExit.confirmed
      ∧ (transfer_submit true true [.Applied, .Applied, .Finished]).1.count
        NodeCall.inject = 1)
    ∧ ((transfer_submit true true [.Refused]).1.count NodeCall.poll = 1
      ∧ (transfer_submit true true [.Refused]).2
        = SubmitResult.loopDone LoopExit.refused
      ∧ (transfer_submit true true [.Refused]).1.count NodeCall.inject = 1)
    ∧ ((transfer_submit true true (List.replicate 10 .Applied)).1.count
        NodeCall.poll = 10
      ∧ (transfer_submit true true (List.replicate 10 .Applied)).2
        = SubmitResult.loopDone LoopExit.timedOut
      ∧ (transfer_submit true true (List.replicate 10 .Applied)).1.count
        NodeCall.inject = 1)
    ∧ (∀ script : List PendingOperationStatus,
        (transfer_submit true true script).1.count NodeCall.inject = 1) := by
  refine ⟨by decide, by decide, by decide, ?_⟩
  intro script
  have h0 : (confirmation_loop ATTEMPT_BUDGET script).1.count NodeCall.inject = 0 :=
    List.count_eq_zero.mpr (confirmation_loop_no_inject _ _)
  simp [transfer_submit, List.count_cons, h0]

/-- C2: In every execution of the submission tail, inject_operations is
called only after preapply_operations has returned successfully: when the
preapply step fails, injection is never attempted, and whenever inject
appears in the call trace, preapply succeeded and the trace starts with
preapply immediately followed by inject. -/
theorem C2_preapply_before_inject (preapply_ok inject_ok : Bool)
    (script : List PendingOperationStatus) :
    (preapply_ok = false →
      NodeCall.inject ∉ (transfer_submit preapply_ok inject_ok script).1)
    ∧ (NodeCall.inject ∈ (transfer_submit preapply_ok inject_ok script).1 →
      preapply_ok = true
      ∧ (transfer_submit preapply_ok inject_ok script).1.take 2
        = [NodeCall.preapply, NodeCall.inject]) := by
  cases preapply_ok with
  | false =>
    refine ⟨fun _ h => ?_, fun h => ?_⟩
    · simp [transfer_submit] at h
    · simp [transfer_submit] at h
  | true =>
    cases inject_ok with
    | false =>
      exact ⟨fun h => (nomatch h), fun _ => ⟨rfl, rfl⟩⟩
    | true =>
      exact ⟨fun h => (nomatch h), fun _ => ⟨rfl, rfl⟩⟩

/-- Witness for C2 at concrete inputs: with a failing preapply no inject call
appears in the trace, and on a successful run the trace begins with preapply
then inject. -/
theorem C2_preapply_before_inject_witness :
    NodeCall.inject ∉ (transfer_submit false true []).1
    ∧ (transfer_submit true true [.Finished]).1.take 2
      = [NodeCall.preapply, NodeCall.inject] :=
  ⟨(C2_preapply_before_inject false true []).1 rfl,
   ((C2_preapply_before_inject true true [.Finished]).2 (by decide)).2⟩

/-- C3 counterexample: when the attempt budget is exhausted while the status
is still Applied, the submission ends in the timed-out loop exit, but the
program's report of it is identical to its report of a confirmed run — the
code after the loop unconditionally prints "operation confirmed" — so the
outcome is not distinguishable from Confirmed, contradicting the claim. -/
theorem C3_timeout_not_distinguishable :
    (transfer_submit true true (List.replicate 10 .Applied)).2
      = SubmitResult.loopDone LoopExit.timedOut
    ∧ transfer_report (transfer_submit true true (List.replicate 10 .Applied)).2
      = transfer_report (SubmitResult.loopDone LoopExit.confirmed) := by
  decide

/-- C3 (amended): when the attempt budget is exhausted while the operation
status is still Applied, the pipeline ends in a timed-out state that is
non-fatal (neither the refused error exit nor a panic) and distinguishable
from Refused, and the operation hash is still printed for the caller for
later lookup; however it is reported with the very same "operation
confirmed" message as a confirmed operation, so the report does not
distinguish TimedOut from Confirmed. -/
theorem C3_timeout_report :
    (transfer_submit true true (List.replicate 10 .Applied)).2
      = SubmitResult.loopDone LoopExit.timedOut
    ∧ transfer_report (SubmitResult.loopDone LoopExit.timedOut)
      ≠ TransferReport.exitRefused
    ∧ transfer_report (SubmitResult.loopDone LoopExit.timedOut)
      ≠ TransferReport.panic
    ∧ transfer_report (SubmitResult.loopDone LoopExit.timedOut)
      ≠ transfer_report (SubmitResult.loopDone LoopExit.refused)
    ∧ hash_printed (transfer_report (SubmitResult.loopDone LoopExit.timedOut))
      = true
    ∧ transfer_report (SubmitResult.loopDone LoopExit.timedOut)
      = transfer_report (SubmitResult.loopDone LoopExit.confirmed) := by
  decide

/-- C4 counterexample: not every node-call failure is returned as a
TransportError — `GetCounterForKey for HttpApi` unwraps the call result, so
an underlying network failure on get_counter_for_key escapes as a panic
instead of being returned to the caller, refuting the claim for that
method at this concrete input. -/
theorem C4_counter_for_key_failure_panics :
    get_counter_for_key "tz1av5nBB8Jp6VZZDBdmGifRcETaYc7UkEnU"
      (.error (.Transport "connection refused"))
      (fun _ => .ok "42")
      = Unwrapped.panicked := rfl

/-- C4 (amended): get_contract_counter returns an underlying network failure
to the caller as a TransportError wrapping that failure, surfaced together
with the queried address; but the remaining NodeClient methods implemented
in http_api.rs, get_counter_for_key among them, unwrap their node-call
results, so there a network failure escapes as a panic rather than being
returned. -/
theorem C4_transport_error_surfacing (addr : Address) (d : String)
    (into_json : UreqResponse → Except IoError Nat) :
    get_contract_counter addr (.error (.Transport d)) into_json
      = .error { address := addr,
                 kind := .Transport { boxed := .ureqTransport d } }
    ∧ ∀ (key : String) (json : UreqResponse → Except IoError String),
        get_counter_for_key key (.error (.Transport d)) json
          = Unwrapped.panicked :=
  ⟨rfl, fun _ _ => rfl⟩

/-- C5: the counter placed in the operation built by `Transfer::execute` is
exactly the on-chain counter fetched for the source address plus 1, and the
builder stores any caller-supplied counter verbatim, recomputing nothing. -/
theorem C5_counter_is_on_chain_plus_one (source destination : Address)
    (amount fee : Nat) (data : FetchedNodeData) :
    (∃ tx, transfer_execute_build source destination amount fee data
        = Except.ok tx
      ∧ tx.counter = data.on_chain_counter + 1)
    ∧ ∀ c : Nat, ∃ tx,
        new_transaction_operation_build (some source) (some destination)
          (some amount) (some fee) (some c) (some 50000)
          (some data.hard_storage_limit_per_operation) = Except.ok tx
        ∧ tx.counter = c :=
  ⟨⟨_, rfl, rfl⟩, fun _ => ⟨_, rfl, rfl⟩⟩

/-- C6: kind_str returns exactly "reveal", "transaction" and "delegation"
for the respective variants, and the forge request is a POST to
{base_url}/chains/main/blocks/{branch}/helpers/forge/operations whose body
carries the branch and the operations each wrapped with that kind
discriminant. -/
theorem C6_kind_str_and_forge_request (r : NewRevealOperation)
    (t : NewTransactionOperation) (d : NewDelegationOperation)
    (base_url branch : String) (operations : List NewOperation) :
    (NewOperation.Reveal r).kind_str = "reveal"
    ∧ (NewOperation.Transaction t).kind_str = "transaction"
    ∧ (NewOperation.Delegation d).kind_str = "delegation"
    ∧ forge_operations_request base_url branch operations
      = (HttpMethod.POST,
         base_url ++ "/chains/main/blocks/" ++ branch
           ++ "/helpers/forge/operations",
         { branch := branch,
           contents := operations.map fun op =>
             { kind := op.kind_str, operation := op } }) :=
  ⟨rfl, rfl, rfl, rfl⟩

/-- Evaluation of the variable-length size estimate at 1. -/
theorem zarith_bytes_one : zarith_bytes 1 = 1 := by
  rw [zarith_bytes]; norm_num

/-- Evaluation of the variable-length size estimate at 2. -/
theorem zarith_bytes_two : zarith_bytes 2 = 1 := by
  rw [zarith_bytes]; norm_num

/-- Evaluation of the variable-length size estimate at 200. -/
theorem zarith_bytes_two_hundred : zarith_bytes 200 = 2 := by
  rw [zarith_bytes, zarith_bytes]; norm_num

/-- C7: for fixed protocol constants, estimate_fee is non-decreasing in the
operation's estimate_bytes value and non-decreasing in estimated_gas:
increasing either input never decreases the resulting fee. -/
theorem C7_estimate_fee_monotone (base_fee ntez_per_byte ntez_per_gas : Nat)
    (op1 op2 : NewOperation) (gas1 gas2 : Nat)
    (hbytes : op1.estimate_bytes ≤ op2.estimate_bytes) (hgas : gas1 ≤ gas2) :
    op1.estimate_fee base_fee ntez_per_byte ntez_per_gas gas1
      ≤ op2.estimate_fee base_fee ntez_per_byte ntez_per_gas gas2 := by
  unfold NewOperation.estimate_fee estimate_operation_fee
  exact Nat.add_le_add
    (Nat.add_le_add_left (Nat.mul_le_mul hbytes (Nat.le_refl _)) base_fee)
    (Nat.mul_le_mul hgas (Nat.le_refl _))

/-- Witness for C7: a transaction with amount 1 has a smaller byte estimate
than one with amount 200, and with gas 5 versus 9 the estimated fee does not
decrease. -/
theorem C7_estimate_fee_monotone_witness :
    (NewOperation.Transaction sample_tx1).estimate_bytes
      ≤ (NewOperation.Transaction sample_tx3).estimate_bytes
    ∧ (5 : Nat) ≤ 9
    ∧ (NewOperation.Transaction sample_tx1).estimate_fee 100 2 3 5
      ≤ (NewOperation.Transaction sample_tx3).estimate_fee 100 2 3 9 := by
  have hb : (NewOperation.Transaction sample_tx1).estimate_bytes
      ≤ (NewOperation.Transaction sample_tx3).estimate_bytes := by
    show sample_tx1.estimate_bytes ≤ sample_tx3.estimate_bytes
    rw [NewTransactionOperation.estimate_bytes,
        NewTransactionOperation.estimate_bytes]
    show 34 + address_field_bytes + zarith_bytes 1
      ≤ 34 + address_field_bytes + zarith_bytes 200
    rw [zarith_bytes_one, zarith_bytes_two_hundred]
    norm_num
  exact ⟨hb, by norm_num,
    C7_estimate_fee_monotone 100 2 3 _ _ 5 9 hb (by norm_num)⟩

/-- C8: set_fee changes only the fee field: afterwards get_fee returns the
new fee, while kind_str and estimate_bytes are unchanged, and restoring the
original fee recovers the original operation exactly — so every non-fee
field is untouched. -/
theorem C8_set_fee_frame (op : NewOperation) (f : Nat) :
    (op.set_fee f).get_fee = f
    ∧ (op.set_fee f).kind_str = op.kind_str
    ∧ (op.set_fee f).estimate_bytes = op.estimate_bytes
    ∧ (op.set_fee f).set_fee op.get_fee = op := by
  cases op with
  | Reveal o => exact ⟨rfl, rfl, rfl, rfl⟩
  | Transaction o => exact ⟨rfl, rfl, rfl, rfl⟩
  | Delegation o => exact ⟨rfl, rfl, rfl, rfl⟩

/-- C9: estimate_fee depends on an operation only through its byte estimate:
two operations with equal estimate_bytes receive the same fee for identical
constants and gas, regardless of their variants or other fields. -/
theorem C9_estimate_fee_only_bytes (op1 op2 : NewOperation)
    (h : op1.estimate_bytes = op2.estimate_bytes)
    (base_fee ntez_per_byte ntez_per_gas estimated_gas : Nat) :
    op1.estimate_fee base_fee ntez_per_byte ntez_per_gas estimated_gas
      = op2.estimate_fee base_fee ntez_per_byte ntez_per_gas estimated_gas := by
  unfold NewOperation.estimate_fee
  rw [h]

/-- Witness for C9: two transactions differing in source, destination,
amount, fee, counter, gas limit and storage limit, but with equal byte
estimates, receive the same estimated fee. -/
theorem C9_estimate_fee_only_bytes_witness :
    (NewOperation.Transaction sample_tx1).estimate_bytes
      = (NewOperation.Transaction sample_tx2).estimate_bytes
    ∧ (NewOperation.Transaction sample_tx1).estimate_fee 100 2 3 7
      = (NewOperation.Transaction sample_tx2).estimate_fee 100 2 3 7 := by
  have hb : (NewOperation.Transaction sample_tx1).estimate_bytes
      = (NewOperation.Transaction sample_tx2).estimate_bytes := by
    show sample_tx1.estimate_bytes = sample_tx2.estimate_bytes
    rw [NewTransactionOperation.estimate_bytes,
        NewTransactionOperation.estimate_bytes]
    show 34 + address_field_bytes + zarith_bytes 1
      = 34 + address_field_bytes + zarith_bytes 2
    rw [zarith_bytes_one, zarith_bytes_two]
  exact ⟨hb, C9_estimate_fee_only_bytes _ _ hb 100 2 3 7⟩

/-- C10: whenever get_contract_counter fails, the returned error carries the
exact Address that was queried, and its kind classifies the failure: a ureq
transport error or an IO error maps to Transport wrapping the underlying
error, while an HTTP status error maps to Unknown carrying the status code
and status text, plus the response body message when readable. -/
theorem C10_contract_counter_error_classification (addr : Address)
    (call : Except UreqError UreqResponse)
    (into_json : UreqResponse → Except IoError Nat)
    (err : GetContractCounterError)
    (h : get_contract_counter addr call into_json = .error err) :
    err.address = addr
    ∧ ((∃ d, call = .error (.Transport d)
          ∧ err.kind = .Transport { boxed := .ureqTransport d })
      ∨ (∃ code resp, call = .error (.Status code resp)
          ∧ err.kind = .Unknown ("Http status: (" ++ toString code ++ ", "
              ++ resp.status_text ++ ")"
              ++ (match resp.body_string with
                  | .ok s => ", message: " ++ s
                  | .error _ => "")))
      ∨ (∃ resp e, call = .ok resp ∧ into_json resp = .error e
          ∧ err.kind = .Transport { boxed := .io e })) := by
  cases call with
  | error e =>
    cases e with
    | Transport d =>
      simp only [get_contract_counter, Except.error.injEq] at h
      subst h
      exact ⟨rfl, Or.inl ⟨d, rfl, rfl⟩⟩
    | Status code resp =>
      simp only [get_contract_counter, Except.error.injEq] at h
      subst h
      exact ⟨rfl, Or.inr (Or.inl ⟨code, resp, rfl, rfl⟩)⟩
  | ok resp =>
    cases hj : into_json resp with
    | error e =>
      simp only [get_contract_counter, hj, Except.error.injEq] at h
      subst h
      exact ⟨rfl, Or.inr (Or.inr ⟨resp, e, rfl, hj, rfl⟩)⟩
    | ok n =>
      simp only [get_contract_counter, hj] at h
      cases h

/-- Witness for C10 at a concrete transport failure: the call fails with an
error that carries the queried address and whose kind is Transport wrapping
the underlying ureq transport error. -/
theorem C10_contract_counter_error_witness :
    get_contract_counter sample_address (.error (.Transport "timeout"))
      (fun _ => .ok 1)
      = .error { address := sample_address,
                 kind := .Transport { boxed := .ureqTransport "timeout" } }
    ∧ ({ address := sample_address,
         kind := .Transport { boxed := .ureqTransport "timeout" } }
         : GetContractCounterError).address = sample_address :=
  ⟨rfl,
   (C10_contract_counter_error_classification sample_address
     (.error (.Transport "timeout")) (fun _ => .ok 1)
     { address := sample_address,
       kind := .Transport { boxed := .ureqTransport "timeout" } } rfl).1⟩
